import Mathlib

/-!
Verification of the BTC price predictor Streamlit page
(`src/btc-price-predictor-vs-marco-conditions.py`).

The page is embedded shallowly: Python numbers become `ℚ`, a pandas
dataframe becomes a list of column names plus a column-value map, the
Streamlit calls become render items, and the external collaborators from
`utils` (`load_data`, `train_model`, `make_prediction`) together with the
interactive widget results are supplied by an `Env` record.  Exceptions
are modelled with `Except Exn`, so an uncaught Python exception is an
`Except.error` escaping `main`.
-/

/-- Python numeric values (floats in the source) are modelled as rationals. -/
abbrev Value := ℚ

/-- A Python exception: its displayed message (`str(e)`) and the full
traceback string that `traceback.format_exc()` would produce. -/
structure Exn where
  msg : String
  tb : String
deriving DecidableEq, Repr

/-- A pandas dataframe: the list of column names, the values of each column,
and the number of rows. -/
structure DataFrame where
  columns : List String
  col : String → List Value
  nrows : Nat

/-- `df.empty` in pandas: true when either axis has length 0. -/
def DataFrame.empty (df : DataFrame) : Bool :=
  df.nrows == 0 || df.columns.isEmpty

/-- A fitted ordinary least-squares linear model: an intercept plus one
coefficient per training feature (`model.intercept_`, `model.coef_`). -/
structure Model where
  intercept : Value
  coef : List Value
deriving DecidableEq, Repr

/-- Dot product of two coefficient/value lists (missing entries count 0). -/
def dot : List Value → List Value → Value
  | [], _ => 0
  | _, [] => 0
  | a :: as, b :: bs => a * b + dot as bs

/-- Modelled from the spec: `make_prediction` is defined in `utils`, which is
not part of the repository excerpt.  Per spec section 4.3, it evaluates the
fitted model at a feature vector given in the training-feature order and
returns the single scalar intercept + sum(coefficient_i × value_i), with no
clamping or validation of the input. -/
def make_prediction (model : Model) (v : List Value) : Value :=
  model.intercept + dot model.coef v

/-- The fixed candidate list of macro features (source lines 28–34). -/
def macro_features : List String :=
  ["gold_price_usd", "SP500", "fed_funds_rate", "US_inflation",
   "US_M2_money_supply_in_billions"]

/-- `[feat for feat in macro_features if feat in btc_macro_df.columns]`
(source line 37). -/
def available_features (df : DataFrame) : List String :=
  macro_features.filter (fun feat => df.columns.contains feat)

/-- `float(series.min())` for a column of the NaN-free cleaned dataframe. -/
def colMin : List Value → Value
  | [] => 0
  | x :: xs => xs.foldl min x

/-- `float(series.max())` for a column of the NaN-free cleaned dataframe. -/
def colMax : List Value → Value
  | [] => 0
  | x :: xs => xs.foldl max x

/-- `float(series.median())`, pandas convention: middle element of the
sorted values for odd length, mean of the two middle elements for even
length. -/
def median (l : List Value) : Value :=
  let s := l.insertionSort (· ≤ ·)
  let n := s.length
  if n = 0 then 0
  else if n % 2 = 1 then s.getD (n / 2) 0
  else (s.getD (n / 2 - 1) 0 + s.getD (n / 2) 0) / 2

/-- One rendered element of the Streamlit page. -/
inductive RenderItem where
  | title (s : String)
  | write (s : String)
  | errorMsg (s : String)
  | sidebarHeader (s : String)
  | sidebarSubheader (s : String)
  | checkboxItem (name : String) (checked : Bool)
  | subheader (s : String)
  | slider (name : String) (lo hi default step : Value)
  | buttonItem (label : String)
  | successMsg (prediction : Value)
  | writeR2 (v : Value)
  | writeRMSE (v : Value)
  | coefTable (features : List String) (coefs : List Value)
  | markdown (s : String)
  | infoMsg (s : String)
deriving DecidableEq, Repr

/-- The environment of one run of `main`: the results of the external
collaborators from `utils` and of the interactive widgets.  Each fallible
call is an `Except`, so it can model a raised exception. -/
structure Env where
  load : Except Exn (Option DataFrame)
  checkbox : String → Except Exn Bool
  train : DataFrame → List String →
    Except Exn (Option Model × Value × Value × Option DataFrame)
  sliderVal : String → Value
  button : Bool
  predict : Model → List Value → Except Exn (Option Value)

/-- The static page introduction (source lines 14–18). -/
def introItems : List RenderItem :=
  [.title "BTC Price Predictor Against Macro Conditions",
   .write "This model demonstrates how the price dynamics of Bitcoin have evolved beyond the traditional 4-year cycle narrative in 2025. It highlights the increasing influence of macroeconomic factors on the valuation of BTC.",
   .write "Use the sliders to explore various economic scenarios—from highly favorable to challenging conditions—and observe their significant impact on the predicted price movement of Bitcoin.",
   .write "Contains data from Mar-2015 to Mar-2025."]

/-- The checkbox loop of source lines 50–54: render one sidebar checkbox per
available feature and collect the checked ones, in order.  A checkbox call
that raises propagates the exception. -/
def selectFeatures (env : Env) : List String →
    Except Exn (List RenderItem × List String)
  | [] => .ok ([], [])
  | f :: rest =>
    match env.checkbox f with
    | .error e => .error e
    | .ok b =>
      match selectFeatures env rest with
      | .error e => .error e
      | .ok (items, sel) =>
        .ok (.checkboxItem f b :: items, if b then f :: sel else sel)

/-- Outcome of the part of `main` before the `try` block: either an early
`return` with the items rendered so far, or the state entering the `try`. -/
inductive PreResult where
  | halted (items : List RenderItem)
  | proceed (items : List RenderItem) (df : DataFrame) (selected : List String)

/-- Source lines 14–58: everything `main` does before the `try` block.
Exceptions here are not inside any handler. -/
def preTry (env : Env) : Except Exn PreResult :=
  match env.load with
  | .error e => .error e
  | .ok none =>
    .ok (.halted (introItems ++
      [.errorMsg "Failed to load data. Please check your data source."]))
  | .ok (some df) =>
    if df.empty then
      .ok (.halted (introItems ++
        [.errorMsg "Failed to load data. Please check your data source."]))
    else
      let avail := available_features df
      if avail.isEmpty then
        .ok (.halted (introItems ++
          [.errorMsg "None of the required macro features are in the dataset.",
           .write ("Available columns: " ++
             String.intercalate ", " df.columns)]))
      else
        match selectFeatures env avail with
        | .error e => .error e
        | .ok (cbItems, selected) =>
          let items := introItems ++
            [.sidebarHeader "Model Configuration",
             .sidebarSubheader "Select Features to Include"] ++ cbItems
          if selected.isEmpty then
            .ok (.halted (items ++
              [.errorMsg "Please select at least one feature for prediction."]))
          else
            .ok (.proceed items df selected)

/-- The slider of source lines 80–87 for one selected feature: bounds are the
min and max of that column of the cleaned dataframe, the default is its
median, the step is (max − min)/100. -/
def sliderFor (clean : DataFrame) (f : String) : RenderItem :=
  .slider f (colMin (clean.col f)) (colMax (clean.col f))
    (median (clean.col f))
    ((colMax (clean.col f) - colMin (clean.col f)) / 100)

/-- The model-information block of source lines 98–134. -/
def modelInfo (selected : List String) (model : Model) (r2 rmse : Value) :
    List RenderItem :=
  [.subheader "Model Information",
   .writeR2 r2,
   .writeRMSE rmse,
   .write "R² of 0.872 is quite strong, which means that the model accounts for approximately 87.2% of the fluctuations in Bitcoin prices.",
   .write "RMSE of 7,929.99 suggest that on average, the predictions of the model differ from the actual Bitcoin price by about $7,929.",
   .write "Feature Coefficients:",
   .coefTable selected model.coef,
   .markdown "**1. Inflation (coefficient: 541.73):**",
   .markdown "**2. Fed funds rate (coefficient: -3,393.99):**",
   .markdown "**3. S&P 500 (coefficient: 27.39):**",
   .markdown "**4. Gold price (coefficient: 4.99):**",
   .markdown "**5. M2 money supply (coefficient: -2.71):**",
   .infoMsg "Disclaimer: This tool is for educational purposes only. Cryptocurrency investments carry significant risk."]

/-- Source lines 91–95: `st.button` returns whether the button was pressed
this run; if pressed, `make_prediction` is called on the slider values and
`st.success` is rendered only when the result is not `None`. -/
def predSection (env : Env) (model : Model) (vals : List Value) :
    Except Exn (List RenderItem) :=
  if env.button then
    match env.predict model vals with
    | .error e => .error e
    | .ok none => .ok []
    | .ok (some p) => .ok [.successMsg p]
  else .ok []

/-- Source lines 62–134: the body of the `try` block.  It calls
`train_model`, bails out with a training-failure message if the model or the
cleaned dataframe is missing or the cleaned dataframe is empty, and otherwise
renders the prediction controls and the model information.  Any exception is
returned as `Except.error` for `main` to catch. -/
def tryBody (env : Env) (df : DataFrame) (selected : List String) :
    Except Exn (List RenderItem) :=
  match env.train df selected with
  | .error e => .error e
  | .ok (model?, r2, rmse, clean?) =>
    match model?, clean? with
    | some model, some clean =>
      if clean.empty then
        .ok [.errorMsg "Could not train model. Please check your data."]
      else
        let sliders := selected.map (sliderFor clean)
        let feature_values := selected.map env.sliderVal
        match predSection env model feature_values with
        | .error e => .error e
        | .ok pred =>
          .ok ([.subheader "Make a Prediction"] ++ sliders ++
            [.buttonItem "Predict BTC Price"] ++ pred ++
            modelInfo selected model r2 rmse)
    | _, _ =>
      .ok [.errorMsg "Could not train model. Please check your data."]

namespace App

/-- The whole `main` of the source file.  The `try`/`except` of lines 61 and
136–138 wraps exactly `tryBody`: an exception raised there is rendered as two
error messages (`st.error` of the message and of the traceback) and `main`
returns normally; an exception raised in `preTry` escapes uncaught. -/
def main (env : Env) : Except Exn (List RenderItem) :=
  match preTry env with
  | .error e => .error e
  | .ok (.halted items) => .ok items
  | .ok (.proceed items df selected) =>
    match tryBody env df selected with
    | .ok body => .ok (items ++ body)
    | .error e =>
      .ok (items ++
        [.errorMsg ("An error occurred: " ++ e.msg), .errorMsg e.tb])

end App

/-- The guard of source line 23: `btc_macro_df is None or btc_macro_df.empty`,
evaluated on the (non-raising) result of `load_data`. -/
def loadFailed : Except Exn (Option DataFrame) → Bool
  | .ok none => true
  | .ok (some df) => df.empty
  | .error _ => false

/-- A concrete dataset containing all five candidate macro columns, each with
the values `[1, 2, 3, 4]`. -/
def dfFull : DataFrame :=
  ⟨macro_features, fun _ => [1, 2, 3, 4], 4⟩

/-- A concrete dataset containing none of the candidate macro columns. -/
def dfNoMacro : DataFrame :=
  ⟨["date", "btc_price"], fun _ => [], 10⟩

/-- A concrete fitted model over the five macro features. -/
def mdl : Model := ⟨100, [1, 1, 1, 1, 1]⟩

/-- The items rendered before the `try` block when the dataset is `dfFull`
and every checkbox is checked. -/
def itemsFull : List RenderItem :=
  introItems ++
    [.sidebarHeader "Model Configuration",
     .sidebarSubheader "Select Features to Include"] ++
    macro_features.map (fun f => .checkboxItem f true)

/-- An environment in which `load_data` raises. -/
def envErr : Env :=
  ⟨.error ⟨"io failure", "Traceback io failure"⟩, fun _ => .ok true,
   fun _ _ => .ok (none, 0, 0, none), fun _ => 0, false, fun _ _ => .ok none⟩

/-- An environment in which `train_model` raises. -/
def envTrainRaises : Env :=
  ⟨.ok (some dfFull), fun _ => .ok true,
   fun _ _ => .error ⟨"boom", "Traceback boom"⟩, fun _ => 0, false,
   fun _ _ => .ok none⟩

/-- An environment in which training succeeds on `dfFull` and the button is
not pressed. -/
def envTrainOk : Env :=
  ⟨.ok (some dfFull), fun _ => .ok true,
   fun _ _ => .ok (some mdl, 87 / 100, 7929, some dfFull), fun _ => 0, false,
   fun _ _ => .ok none⟩

/-- An environment in which training succeeds, the button is pressed, and
`make_prediction` returns `None`. -/
def envPredNone : Env :=
  ⟨.ok (some dfFull), fun _ => .ok true,
   fun _ _ => .ok (some mdl, 87 / 100, 7929, some dfFull), fun _ => 2, true,
   fun _ _ => .ok none⟩

/-- An environment in which `load_data` returns `None`. -/
def envLoadNone : Env :=
  ⟨.ok none, fun _ => .ok true, fun _ _ => .ok (none, 0, 0, none),
   fun _ => 0, false, fun _ _ => .ok none⟩

/-- Same `load_data` result as `envLoadNone`, but every downstream
collaborator behaves differently. -/
def envLoadNoneAlt : Env :=
  ⟨.ok none, fun _ => .ok false, fun _ _ => .error ⟨"x", "y"⟩,
   fun _ => 1, true, fun _ _ => .ok (some 5)⟩

/-- An environment in which the user has deselected every feature. -/
def envAllUnchecked : Env :=
  ⟨.ok (some dfFull), fun _ => .ok false, fun _ _ => .ok (none, 0, 0, none),
   fun _ => 0, false, fun _ _ => .ok none⟩

/-- Same load and checkbox results as `envAllUnchecked`, but a different
trainer and predictor. -/
def envAllUncheckedAlt : Env :=
  ⟨.ok (some dfFull), fun _ => .ok false, fun _ _ => .error ⟨"t", "b"⟩,
   fun _ => 3, true, fun _ _ => .ok (some 7)⟩

/-- An environment whose dataset has none of the candidate macro columns. -/
def envNoMacro : Env :=
  ⟨.ok (some dfNoMacro), fun _ => .ok true,
   fun _ _ => .ok (none, 0, 0, none), fun _ => 0, false, fun _ _ => .ok none⟩

/-- Same dataset as `envNoMacro`, different downstream collaborators. -/
def envNoMacroAlt : Env :=
  ⟨.ok (some dfNoMacro), fun _ => .ok false, fun _ _ => .error ⟨"u", "v"⟩,
   fun _ => 9, true, fun _ _ => .ok (some 1)⟩

/-- An environment in which `train_model` returns `(None, …, None)`. -/
def envTrainNone : Env :=
  ⟨.ok (some dfFull), fun _ => .ok true, fun _ _ => .ok (none, 0, 0, none),
   fun _ => 0, false, fun _ _ => .ok none⟩

/-- Auxiliary: when every checkbox comes back unchecked, the checkbox loop
renders one unchecked checkbox per feature and selects nothing. -/
theorem selectFeatures_all_false (env : Env) (l : List String)
    (h : ∀ f, env.checkbox f = .ok false) :
    selectFeatures env l = .ok (l.map (fun f => .checkboxItem f false), []) := by
  induction l with
  | nil => rfl
  | cons f rest ih => simp [selectFeatures, h f, ih]

/-- C1: the Predictor is linear: `make_prediction model v` is exactly the
intercept plus the dot product of the coefficients with `v`, for every
feature vector `v`, with no clamping or validation. -/
theorem make_prediction_evaluates_linear_model (m : Model) (v : List Value) :
    make_prediction m v = m.intercept + dot m.coef v := rfl

/-- C2: `available_features` returns the ordered sublist of the fixed
five-element candidate list whose names occur among the dataset columns,
in the declared candidate order; when all five are present it returns
exactly the five candidates in order. -/
theorem available_features_ordered_sublist (df : DataFrame) :
    (available_features df).Sublist macro_features ∧
    (∀ f, f ∈ available_features df ↔ f ∈ macro_features ∧ f ∈ df.columns) ∧
    ((∀ f ∈ macro_features, f ∈ df.columns) →
      available_features df = macro_features) := by
  refine ⟨List.filter_sublist _, fun f => ?_, fun h => ?_⟩
  · simp [available_features, List.mem_filter, List.contains, List.elem_iff]
  · rw [available_features, List.filter_eq_self.mpr]
    intro a ha
    simpa [List.contains, List.elem_iff] using h a ha

/-- C3: once control reaches the `try` block, `main` never lets an exception
escape: whatever `tryBody` does, `main` returns normally, and if `tryBody`
raises, the page ends with the error message and the full traceback. -/
theorem try_region_catches (env : Env) (items : List RenderItem)
    (df : DataFrame) (sel : List String)
    (h : preTry env = .ok (.proceed items df sel)) :
    (∃ l, App.main env = .ok l) ∧
    ∀ e, tryBody env df sel = .error e →
      App.main env = .ok (items ++
        [.errorMsg ("An error occurred: " ++ e.msg), .errorMsg e.tb]) := by
  constructor
  · cases h2 : tryBody env df sel with
    | ok body => exact ⟨items ++ body, by simp [App.main, h, h2]⟩
    | error e =>
      exact ⟨items ++ [.errorMsg ("An error occurred: " ++ e.msg),
        .errorMsg e.tb], by simp [App.main, h, h2]⟩
  · intro e h2
    simp [App.main, h, h2]

/-- C3 witness: a run in which `train_model` raises is caught and rendered
as the two error messages. -/
theorem try_region_catches_witness :
    App.main envTrainRaises = .ok (itemsFull ++
      [.errorMsg ("An error occurred: " ++ "boom"),
       .errorMsg "Traceback boom"]) :=
  (try_region_catches envTrainRaises itemsFull dfFull macro_features rfl).2
    ⟨"boom", "Traceback boom"⟩ rfl

/-- C9: an exception escapes `main` exactly when it is raised before the
`try` block (in `load_data` or the checkbox loop); in particular a raising
`load_data` propagates uncaught. -/
theorem uncaught_before_try (env : Env) (e : Exn) :
    (env.load = .error e → App.main env = .error e) ∧
    (App.main env = .error e ↔ preTry env = .error e) := by
  have hmain : ∀ e2 : Exn, App.main env = .error e2 ↔ preTry env = .error e2 := by
    intro e2
    constructor
    · intro hm
      cases hp : preTry env with
      | error e3 =>
        simp [App.main, hp] at hm
        simp [hm]
      | ok pr =>
        cases pr with
        | halted items => simp [App.main, hp] at hm
        | proceed items df sel =>
          cases h2 : tryBody env df sel with
          | ok body => simp [App.main, hp, h2] at hm
          | error e3 => simp [App.main, hp, h2] at hm
    · intro hp
      simp [App.main, hp]
  refine ⟨fun hl => ?_, hmain e⟩
  exact (hmain e).mpr (by simp [preTry, hl])

/-- C9 witness: a raising `load_data` escapes `main` uncaught. -/
theorem uncaught_before_try_witness :
    App.main envErr = .error ⟨"io failure", "Traceback io failure"⟩ :=
  (uncaught_before_try envErr ⟨"io failure", "Traceback io failure"⟩).1 rfl

/-- C5: a missing or empty dataset halts the session with the
data-unavailable error, and the run is independent of every downstream
collaborator (no call to the Feature Selector, Model Trainer or Predictor
can influence it). -/
theorem data_unavailable_halts (env env2 : Env) (h : env2.load = env.load)
    (hfail : loadFailed env.load = true) :
    App.main env = .ok (introItems ++
      [.errorMsg "Failed to load data. Please check your data source."]) ∧
    App.main env2 = App.main env := by
  have key : ∀ env3 : Env, env3.load = env.load →
      App.main env3 = .ok (introItems ++
        [.errorMsg "Failed to load data. Please check your data source."]) := by
    intro env3 h3
    cases hl : env.load with
    | error e => rw [hl] at hfail; simp [loadFailed] at hfail
    | ok odf =>
      cases odf with
      | none => simp [App.main, preTry, h3, hl]
      | some df =>
        have hemp : df.empty = true := by
          rw [hl] at hfail; simpa [loadFailed] using hfail
        simp [App.main, preTry, h3, hl, hemp]
  exact ⟨key env rfl, (key env2 h).trans (key env rfl).symm⟩

/-- C5 witness: `load_data` returning `None` halts with the error, and an
environment with entirely different downstream collaborators renders the
same page. -/
theorem data_unavailable_halts_witness :
    App.main envLoadNone = .ok (introItems ++
      [.errorMsg "Failed to load data. Please check your data source."]) ∧
    App.main envLoadNoneAlt = App.main envLoadNone :=
  data_unavailable_halts envLoadNone envLoadNoneAlt rfl rfl

/-- C7: when none of the five candidate macro features is a dataset column,
`main` halts with the configuration error and a listing of the columns that
are available, independently of every downstream collaborator. -/
theorem no_usable_features_halts (env env2 : Env) (df : DataFrame)
    (hl : env.load = .ok (some df)) (hl2 : env2.load = .ok (some df))
    (hne : df.empty = false) (hnone : available_features df = []) :
    App.main env = .ok (introItems ++
      [.errorMsg "None of the required macro features are in the dataset.",
       .write ("Available columns: " ++
         String.intercalate ", " df.columns)]) ∧
    App.main env2 = App.main env := by
  have key : ∀ env3 : Env, env3.load = .ok (some df) →
      App.main env3 = .ok (introItems ++
        [.errorMsg "None of the required macro features are in the dataset.",
         .write ("Available columns: " ++
           String.intercalate ", " df.columns)]) := by
    intro env3 h3
    simp [App.main, preTry, h3, hne, hnone]
  exact ⟨key env hl, (key env2 hl2).trans (key env hl).symm⟩

/-- C7 witness: a dataset with only `date` and `btc_price` columns halts
with the configuration error listing those columns, whatever the
downstream collaborators do. -/
theorem no_usable_features_halts_witness :
    App.main envNoMacro = .ok (introItems ++
      [.errorMsg "None of the required macro features are in the dataset.",
       .write ("Available columns: " ++
         String.intercalate ", " dfNoMacro.columns)]) ∧
    App.main envNoMacroAlt = App.main envNoMacro :=
  no_usable_features_halts envNoMacro envNoMacroAlt dfNoMacro rfl rfl rfl rfl

/-- C6: when the user deselects every feature, `main` renders the unchecked
checkboxes followed by the select-at-least-one error and returns normally
(no exception), before any training, independently of the trainer and
predictor. -/
theorem empty_selection_halts (env env2 : Env) (df : DataFrame)
    (hl : env.load = .ok (some df)) (hl2 : env2.load = .ok (some df))
    (hcb : ∀ f, env.checkbox f = .ok false)
    (hcb2 : ∀ f, env2.checkbox f = .ok false)
    (hne : df.empty = false) (havail : available_features df ≠ []) :
    App.main env = .ok (introItems ++
      [.sidebarHeader "Model Configuration",
       .sidebarSubheader "Select Features to Include"] ++
      (available_features df).map (fun f => .checkboxItem f false) ++
      [.errorMsg "Please select at least one feature for prediction."]) ∧
    App.main env2 = App.main env := by
  have hav : (available_features df).isEmpty = false := by
    cases hA : available_features df with
    | nil => exact absurd hA havail
    | cons a l => rfl
  have key : ∀ env3 : Env, env3.load = .ok (some df) →
      (∀ f, env3.checkbox f = .ok false) →
      App.main env3 = .ok (introItems ++
        [.sidebarHeader "Model Configuration",
         .sidebarSubheader "Select Features to Include"] ++
        (available_features df).map (fun f => .checkboxItem f false) ++
        [.errorMsg "Please select at least one feature for prediction."]) := by
    intro env3 h3 hc3
    have hsel := selectFeatures_all_false env3 (available_features df) hc3
    simp [App.main, preTry, h3, hne, hav, hsel]
  exact ⟨key env hl hcb, (key env2 hl2 hcb2).trans (key env hl hcb).symm⟩

/-- C6 witness: all five checkboxes unchecked renders the user-input error,
identically for two environments with different trainers and predictors. -/
theorem empty_selection_halts_witness :
    App.main envAllUnchecked = .ok (introItems ++
      [.sidebarHeader "Model Configuration",
       .sidebarSubheader "Select Features to Include"] ++
      (available_features dfFull).map (fun f => .checkboxItem f false) ++
      [.errorMsg "Please select at least one feature for prediction."]) ∧
    App.main envAllUncheckedAlt = App.main envAllUnchecked :=
  empty_selection_halts envAllUnchecked envAllUncheckedAlt dfFull rfl rfl
    (fun _ => rfl) (fun _ => rfl) rfl (by decide)

/-- C8: when training yields a missing model, a missing cleaned dataframe,
or an empty cleaned dataframe, `main` renders only the training-failure
message after the sidebar and returns normally: no sliders, prediction
controls or model information. -/
theorem training_failure_halts (env : Env) (items : List RenderItem)
    (df : DataFrame) (sel : List String) (mo : Option Model)
    (r2 rmse : Value) (cl : Option DataFrame)
    (h1 : preTry env = .ok (.proceed items df sel))
    (h2 : env.train df sel = .ok (mo, r2, rmse, cl))
    (h3 : mo = none ∨ cl = none ∨ ∃ c, cl = some c ∧ c.empty = true) :
    App.main env = .ok (items ++
      [.errorMsg "Could not train model. Please check your data."]) := by
  have hbody : tryBody env df sel =
      .ok [.errorMsg "Could not train model. Please check your data."] := by
    rcases h3 with h3 | h3 | ⟨c, hc, hce⟩
    · subst h3; cases cl <;> simp [tryBody, h2]
    · subst h3; cases mo <;> simp [tryBody, h2]
    · subst hc
      cases mo with
      | none => simp [tryBody, h2]
      | some m => simp [tryBody, h2, hce]
  simp [App.main, h1, hbody]

/-- C8 witness: `train_model` returning `(None, 0, 0, None)` yields only the
training-failure message after the sidebar items. -/
theorem training_failure_halts_witness :
    App.main envTrainNone = .ok (itemsFull ++
      [.errorMsg "Could not train model. Please check your data."]) :=
  training_failure_halts envTrainNone itemsFull dfFull macro_features none
    0 0 none rfl rfl (Or.inl rfl)

/-- C4: on a successful training run, the page contains exactly one slider
per selected feature, in order, with lower bound the column minimum, upper
bound the column maximum, default the column median, and step
(max − min)/100 over the cleaned dataframe. -/
theorem slider_per_selected_feature (env : Env) (items : List RenderItem)
    (df : DataFrame) (sel : List String) (model : Model) (r2 rmse : Value)
    (clean : DataFrame) (pred : List RenderItem)
    (h1 : preTry env = .ok (.proceed items df sel))
    (h2 : env.train df sel = .ok (some model, r2, rmse, some clean))
    (h3 : clean.empty = false)
    (h4 : predSection env model (sel.map env.sliderVal) = .ok pred) :
    App.main env = .ok (items ++ [.subheader "Make a Prediction"] ++
      sel.map (fun f => RenderItem.slider f (colMin (clean.col f))
        (colMax (clean.col f)) (median (clean.col f))
        ((colMax (clean.col f) - colMin (clean.col f)) / 100)) ++
      [.buttonItem "Predict BTC Price"] ++ pred ++
      modelInfo sel model r2 rmse) := by
  have hmap : sel.map (sliderFor clean) =
      sel.map (fun f => RenderItem.slider f (colMin (clean.col f))
        (colMax (clean.col f)) (median (clean.col f))
        ((colMax (clean.col f) - colMin (clean.col f)) / 100)) := rfl
  have hbody : tryBody env df sel = .ok ([.subheader "Make a Prediction"] ++
      sel.map (sliderFor clean) ++ [.buttonItem "Predict BTC Price"] ++
      pred ++ modelInfo sel model r2 rmse) := by
    simp [tryBody, h2, h3, h4]
  simp [App.main, h1, hbody, hmap]

/-- C4 witness: on `dfFull` (each column `[1, 2, 3, 4]`) every slider has
bounds 1 and 4, default 5/2 and step 3/100. -/
theorem slider_per_selected_feature_witness :
    App.main envTrainOk = .ok (itemsFull ++ [.subheader "Make a Prediction"] ++
      macro_features.map (fun f => RenderItem.slider f (colMin (dfFull.col f))
        (colMax (dfFull.col f)) (median (dfFull.col f))
        ((colMax (dfFull.col f) - colMin (dfFull.col f)) / 100)) ++
      [.buttonItem "Predict BTC Price"] ++ [] ++
      modelInfo macro_features mdl (87 / 100) 7929) :=
  slider_per_selected_feature envTrainOk itemsFull dfFull macro_features mdl
    (87 / 100) 7929 dfFull [] rfl rfl rfl rfl

/-- C10: when the button is pressed and `make_prediction` returns `None`,
the page contains neither a success message nor any error: it is exactly
the page rendered with the button untouched. -/
theorem prediction_none_silent (env : Env) (items : List RenderItem)
    (df : DataFrame) (sel : List String) (model : Model) (r2 rmse : Value)
    (clean : DataFrame)
    (h1 : preTry env = .ok (.proceed items df sel))
    (h2 : env.train df sel = .ok (some model, r2, rmse, some clean))
    (h3 : clean.empty = false)
    (hb : env.button = true)
    (hp : env.predict model (sel.map env.sliderVal) = .ok none) :
    App.main env = .ok (items ++ [.subheader "Make a Prediction"] ++
      sel.map (sliderFor clean) ++ [.buttonItem "Predict BTC Price"] ++
      modelInfo sel model r2 rmse) := by
  have h4 : predSection env model (sel.map env.sliderVal) = .ok [] := by
    simp [predSection, hb, hp]
  have hbody : tryBody env df sel = .ok ([.subheader "Make a Prediction"] ++
      sel.map (sliderFor clean) ++ [.buttonItem "Predict BTC Price"] ++
      modelInfo sel model r2 rmse) := by
    simp [tryBody, h2, h3, h4]
  simp [App.main, h1, hbody]

/-- C10 witness: pressing the button with a `None` prediction renders the
same page as an unpressed button: no success message and no error. -/
theorem prediction_none_silent_witness :
    App.main envPredNone = .ok (itemsFull ++ [.subheader "Make a Prediction"] ++
      macro_features.map (sliderFor dfFull) ++
      [.buttonItem "Predict BTC Price"] ++
      modelInfo macro_features mdl (87 / 100) 7929) :=
  prediction_none_silent envPredNone itemsFull dfFull macro_features mdl
    (87 / 100) 7929 dfFull rfl rfl rfl rfl rfl
